import Mathlib

/-!
Verification development for the ai_talk repository.

Part 1 models the summarization scheduler `create_hourly_summary_report`
from `app/database.py`.  Python `datetime` values are modelled by
`PyDateTime`: the wall-clock reading in seconds together with an optional
UTC offset (`none` = a naive datetime).  The database is modelled as the
per-user contents of the `summaries` and `conversations` tables; the
external AI completion provider (`get_ai_chat_completion`, an external
collaborator) is a parameter returning `Except` to model a Python call
that may raise.

Part 2 models the client conversation controller from
`src/frontend/src/screens/SpeakScreen.tsx` as a state record
(`SpeakState`) with one transition function per event handler.
-/

namespace AiTalk

/-- A Python `datetime`: `wall` is the wall-clock reading expressed in
seconds since the epoch, `tz` the UTC offset in seconds carried by
`tzinfo` (`none` for a naive datetime). -/
structure PyDateTime where
  wall : Int
  tz : Option Int
deriving DecidableEq

/-- The absolute UTC instant a datetime denotes; Python compares aware
datetimes by this value.  A naive datetime has no offset to subtract. -/
def PyDateTime.instant (d : PyDateTime) : Int :=
  d.wall - d.tz.getD 0

/-- Source `last_summary_time.replace(tzinfo=timezone.utc)` applied only when the
value is naive — `app/database.py` lines 70-71. -/
def normalizeUTC (d : PyDateTime) : PyDateTime :=
  if d.tz.isNone then { d with tz := some 0 } else d

/-- Python `datetime.min` (year 1, naive), used as the query start when no
summary exists — `app/database.py` line 78. -/
def pyDateTimeMin : PyDateTime :=
  { wall := -62135596800, tz := none }

/-- A row of the `conversations` table for one user.  `createdAt` is the
absolute instant the database recorded (seconds since the epoch). -/
structure Conv where
  userMessage : String
  aiMessage : String
  createdAt : Int
deriving DecidableEq

/-- A row of the `summaries` table for one user. -/
structure Summary where
  summaryText : String
  createdAt : PyDateTime
deriving DecidableEq

/-- The per-user contents of the two tables touched by the scheduler. -/
structure Db where
  summaries : List Summary
  conversations : List Conv
deriving DecidableEq

/-- Source `SELECT created_at FROM summaries ... ORDER BY created_at DESC LIMIT 1`
(`app/database.py` line 61): the greatest stored `created_at`, if any. -/
def lastSummaryTime (db : Db) : Option PyDateTime :=
  db.summaries.foldl
    (fun acc s =>
      match acc with
      | none => some s.createdAt
      | some t => if t.wall < s.createdAt.wall then some s.createdAt else some t)
    none

/-- One conversation row rendered for the report prompt
(`app/database.py` line 87). -/
def renderConv (c : Conv) : String :=
  "사용자: " ++ c.userMessage ++ "\nAI: " ++ c.aiMessage

/-- The report prompt built at `app/database.py` lines 87-88. -/
def reportPromptOf (convs : List Conv) : String :=
  "다음은 사용자의 최근 대화 내용입니다. 이 내용을 바탕으로 사용자의 상태와 주요 대화 내용을 요약하는 \x27시간별 리포트\x27를 작성해주세요.\n\n--- 대화 내용 ---\n"
    ++ String.intercalate "\n" (convs.map renderConv)
    ++ "\n-----------------\n\n시간별 리포트:"

/-- The observable result of one scheduler invocation. -/
inductive ReportOutcome
  | skippedWindow
  | skippedNoNew
  | created (rendered : List Conv) (prompt : String) (reportText : String)
  | completionFailed (err : String)
deriving DecidableEq

/-- Source `app/database.py` lines 78-94: query the conversations newer than
`startTime`, skip when there are none, otherwise call the completion
provider and insert a summary row; an exception from the provider
propagates before the insert, leaving the store unchanged. -/
def proceedReport (completion : String → Except String String) (db : Db)
    (utcNow : Int) (startTime : PyDateTime) : Db × ReportOutcome :=
  match db.conversations.filter (fun c => decide (startTime.instant < c.createdAt)) with
  | [] => (db, .skippedNoNew)
  | c :: cs =>
      match completion (reportPromptOf (c :: cs)) with
      | .error e => (db, .completionFailed e)
      | .ok reportText =>
          ({ db with
              summaries := db.summaries ++
                [{ summaryText := reportText, createdAt := { wall := utcNow, tz := none } }] },
            .created (c :: cs) (reportPromptOf (c :: cs)) reportText)

/-- Source `create_hourly_summary_report` (`app/database.py` lines 52-98):
fetch the latest summary time; if one exists, normalize it to UTC and skip
when it is more recent than `utc_now - 1 hour`; otherwise run the report
from that time (or from `datetime.min` when no summary exists). -/
def create_hourly_summary_report (completion : String → Except String String)
    (db : Db) (utcNow : Int) : Db × ReportOutcome :=
  match lastSummaryTime db with
  | some t0 =>
      let t := normalizeUTC t0
      if utcNow - 3600 < t.instant then (db, .skippedWindow)
      else proceedReport completion db utcNow t
  | none => proceedReport completion db utcNow pyDateTimeMin

/-- The start of the turn window the report uses, mirroring
`start_time = last_summary_time or datetime.min` after normalization. -/
def startTimeOf (db : Db) : PyDateTime :=
  match lastSummaryTime db with
  | some t => normalizeUTC t
  | none => pyDateTimeMin

/-- The instant of the window start. -/
def reportStartInstant (db : Db) : Int :=
  (startTimeOf db).instant

/-- The window check of `app/database.py` line 73 is passed (a report is
due): either no summary exists, or the normalized last summary time is at
least one hour before `utcNow`. -/
def isDue (db : Db) (utcNow : Int) : Bool :=
  match lastSummaryTime db with
  | some t => decide ((normalizeUTC t).instant ≤ utcNow - 3600)
  | none => true

/-- Unfolding of the scheduler when a last summary exists. -/
theorem create_eq_of_last_some (completion : String → Except String String)
    (db : Db) (utcNow : Int) (t : PyDateTime) (h : lastSummaryTime db = some t) :
    create_hourly_summary_report completion db utcNow =
      if utcNow - 3600 < (normalizeUTC t).instant then (db, ReportOutcome.skippedWindow)
      else proceedReport completion db utcNow (normalizeUTC t) := by
  unfold create_hourly_summary_report
  rw [h]

/-- Unfolding of the scheduler when no summary exists. -/
theorem create_eq_of_last_none (completion : String → Except String String)
    (db : Db) (utcNow : Int) (h : lastSummaryTime db = none) :
    create_hourly_summary_report completion db utcNow =
      proceedReport completion db utcNow pyDateTimeMin := by
  unfold create_hourly_summary_report
  rw [h]

/-- Claim C2: for every user with a most recent SummaryRecord created at
time T, if now(UTC) - T < 1 hour then invoking the summary scheduler
creates no new SummaryRecord — the invocation returns the store unchanged
with the skipped-window outcome. -/
theorem hourly_report_skipped_within_hour
    (completion : String → Except String String) (db : Db) (utcNow : Int)
    (t : PyDateTime) (hlast : lastSummaryTime db = some t)
    (hwin : utcNow - (normalizeUTC t).instant < 3600) :
    create_hourly_summary_report completion db utcNow = (db, ReportOutcome.skippedWindow) := by
  rw [create_eq_of_last_some completion db utcNow t hlast]
  rw [if_pos (by omega)]

/-- Witness for claim C2: a summary half an hour old makes the scheduler
skip. -/
theorem hourly_report_skipped_within_hour_witness :
    create_hourly_summary_report (fun _ => Except.ok "r")
        { summaries := [{ summaryText := "s", createdAt := { wall := 7200, tz := some 0 } }],
          conversations := [{ userMessage := "u", aiMessage := "a", createdAt := 8000 }] }
        9000
      = ({ summaries := [{ summaryText := "s", createdAt := { wall := 7200, tz := some 0 } }],
           conversations := [{ userMessage := "u", aiMessage := "a", createdAt := 8000 }] },
         ReportOutcome.skippedWindow) :=
  hourly_report_skipped_within_hour (fun _ => Except.ok "r") _ 9000
    { wall := 7200, tz := some 0 } rfl (by decide)

/-- When the window check passes, the scheduler runs the report from the
window start `startTimeOf db`. -/
theorem create_eq_proceed_of_due (completion : String → Except String String)
    (db : Db) (utcNow : Int) (hdue : isDue db utcNow = true) :
    create_hourly_summary_report completion db utcNow =
      proceedReport completion db utcNow (startTimeOf db) := by
  rcases h : lastSummaryTime db with _ | t
  · rw [create_eq_of_last_none completion db utcNow h]
    unfold startTimeOf
    rw [h]
  · have hle : (normalizeUTC t).instant ≤ utcNow - 3600 := by
      unfold isDue at hdue
      rw [h] at hdue
      exact of_decide_eq_true hdue
    rw [create_eq_of_last_some completion db utcNow t h, if_neg (by omega)]
    unfold startTimeOf
    rw [h]

/-- Claim C3: when the scheduler is due, the set of turns rendered into
the completion prompt is exactly the set of turns with
`createdAt > reportStartInstant db` (every such turn included, every
other turn excluded, all turns when no record exists), and if that set is
empty no SummaryRecord is created. -/
theorem hourly_report_turn_window_exact
    (completion : String → Except String String) (db : Db) (utcNow : Int)
    (hdue : isDue db utcNow = true)
    (hmin : ∀ c ∈ db.conversations, pyDateTimeMin.instant < c.createdAt) :
    (db.conversations.filter (fun c => decide (reportStartInstant db < c.createdAt)) = [] →
        create_hourly_summary_report completion db utcNow = (db, ReportOutcome.skippedNoNew))
    ∧ (∀ rendered prompt rt,
        (create_hourly_summary_report completion db utcNow).2
            = ReportOutcome.created rendered prompt rt →
        (∀ c ∈ db.conversations, (c ∈ rendered ↔ reportStartInstant db < c.createdAt))
        ∧ prompt = reportPromptOf rendered)
    ∧ (lastSummaryTime db = none →
        db.conversations.filter (fun c => decide (reportStartInstant db < c.createdAt))
          = db.conversations) := by
  rw [create_eq_proceed_of_due completion db utcNow hdue]
  refine ⟨?_, ?_, ?_⟩
  · intro hempty
    unfold proceedReport
    rw [show (startTimeOf db).instant = reportStartInstant db from rfl, hempty]
  · intro rendered prompt rt hcr
    unfold proceedReport at hcr
    rw [show (startTimeOf db).instant = reportStartInstant db from rfl] at hcr
    rcases hfil : db.conversations.filter
        (fun c => decide (reportStartInstant db < c.createdAt)) with _ | ⟨c, cs⟩
    · rw [hfil] at hcr
      simp at hcr
    · rw [hfil] at hcr
      simp only [] at hcr
      rcases hcomp : completion (reportPromptOf (c :: cs)) with e | rt0
      · rw [hcomp] at hcr
        simp at hcr
      · rw [hcomp] at hcr
        simp only [ReportOutcome.created.injEq] at hcr
        rcases hcr with ⟨h1, h2, h3⟩
        subst h1
        subst h2
        constructor
        · intro x hx
          rw [← hfil, List.mem_filter]
          simp [hx]
        · rfl
  · intro hnone
    apply List.filter_eq_self.mpr
    intro c hc
    have := hmin c hc
    unfold reportStartInstant startTimeOf
    rw [hnone]
    simpa using this

/-- Witness for claim C3: with one summary an hour old and one newer
conversation the report is created from exactly that conversation. -/
theorem hourly_report_turn_window_exact_witness :
    (create_hourly_summary_report (fun _ => Except.ok "report")
        { summaries := [{ summaryText := "s", createdAt := { wall := 0, tz := some 0 } }],
          conversations := [{ userMessage := "u", aiMessage := "a", createdAt := 5000 }] }
        7200).2
      = ReportOutcome.created [{ userMessage := "u", aiMessage := "a", createdAt := 5000 }]
          (reportPromptOf [{ userMessage := "u", aiMessage := "a", createdAt := 5000 }])
          "report"
    ∧ ({ userMessage := "u", aiMessage := "a", createdAt := 5000 } : Conv) ∈
        ([{ userMessage := "u", aiMessage := "a", createdAt := 5000 }] : List Conv) := by
  have h := hourly_report_turn_window_exact (fun _ => Except.ok "report")
    { summaries := [{ summaryText := "s", createdAt := { wall := 0, tz := some 0 } }],
      conversations := [{ userMessage := "u", aiMessage := "a", createdAt := 5000 }] }
    7200 (by decide) (by decide)
  have hcr : (create_hourly_summary_report (fun _ => Except.ok "report")
      { summaries := [{ summaryText := "s", createdAt := { wall := 0, tz := some 0 } }],
        conversations := [{ userMessage := "u", aiMessage := "a", createdAt := 5000 }] }
      7200).2
      = ReportOutcome.created [{ userMessage := "u", aiMessage := "a", createdAt := 5000 }]
          (reportPromptOf [{ userMessage := "u", aiMessage := "a", createdAt := 5000 }])
          "report" := rfl
  refine ⟨hcr, ?_⟩
  exact ((h.2.1 _ _ _ hcr).1 _ (by simp)).mpr (by decide)

/-- The outcome of the report step depends only on the conversations
table (and the provider), not on the stored summary rows. -/
theorem proceedReport_snd_ext (completion : String → Except String String)
    (utcNow : Int) (st : PyDateTime) (db₁ db₂ : Db)
    (h : db₁.conversations = db₂.conversations) :
    (proceedReport completion db₁ utcNow st).2 = (proceedReport completion db₂ utcNow st).2 := by
  unfold proceedReport
  rw [h]
  rcases hf : db₂.conversations.filter (fun c => decide (st.instant < c.createdAt)) with _ | ⟨c, cs⟩
  · rw [hf]
  · rw [hf]
    simp only []
    rcases hc : completion (reportPromptOf (c :: cs)) with e | rt <;> rfl

/-- The stored last-summary timestamp of the C5 scenario, naive. -/
def naiveLastTs : PyDateTime :=
  { wall := 1704103200, tz := none }

/-- The stored last-summary timestamp of the C5 scenario, UTC-aware.
`1704103200` is 2024-01-01T10:00:00Z in seconds since the epoch. -/
def awareLastTs : PyDateTime :=
  { wall := 1704103200, tz := some 0 }

/-- Claim C5: a stored last-summary timestamp lacking timezone information
is treated as UTC — the scheduler behaves identically for the naive
timestamp 2024-01-01T10:00:00 and the aware 2024-01-01T10:00:00Z, for
every current UTC clock value (and any conversations and provider). -/
theorem naive_timestamp_treated_as_utc
    (completion : String → Except String String) (convs : List Conv)
    (stext : String) (utcNow : Int) :
    (create_hourly_summary_report completion
        { summaries := [{ summaryText := stext, createdAt := naiveLastTs }],
          conversations := convs } utcNow).2
      = (create_hourly_summary_report completion
          { summaries := [{ summaryText := stext, createdAt := awareLastTs }],
            conversations := convs } utcNow).2 := by
  rw [create_eq_of_last_some completion
      { summaries := [{ summaryText := stext, createdAt := naiveLastTs }],
        conversations := convs } utcNow naiveLastTs rfl,
    create_eq_of_last_some completion
      { summaries := [{ summaryText := stext, createdAt := awareLastTs }],
        conversations := convs } utcNow awareLastTs rfl]
  have hn : normalizeUTC naiveLastTs = awareLastTs := rfl
  have ha : normalizeUTC awareLastTs = awareLastTs := rfl
  rw [hn, ha]
  by_cases hw : utcNow - 3600 < awareLastTs.instant
  · rw [if_pos hw, if_pos hw]
  · rw [if_neg hw, if_neg hw]
    exact proceedReport_snd_ext completion utcNow awareLastTs _ _ rfl

/-- A failed completion leaves the store of the report step unchanged. -/
theorem proceedReport_failed_fst (completion : String → Except String String)
    (db : Db) (utcNow : Int) (st : PyDateTime) (e : String)
    (h : (proceedReport completion db utcNow st).2 = ReportOutcome.completionFailed e) :
    (proceedReport completion db utcNow st).1 = db := by
  unfold proceedReport at h ⊢
  rcases hf : db.conversations.filter (fun c => decide (st.instant < c.createdAt)) with _ | ⟨c, cs⟩
  · rw [hf]
  · rw [hf] at h ⊢
    simp only [] at h ⊢
    rcases hc : completion (reportPromptOf (c :: cs)) with e0 | rt
    · rfl
    · rw [hc] at h
      simp at h

/-- Claim C6: if the completion step of a scheduler invocation fails, no
SummaryRecord is written in that invocation — the store the invocation
returns is unchanged, so the next trigger reconsiders the same turn
window. -/
theorem completion_failure_leaves_store_unchanged
    (completion : String → Except String String) (db : Db) (utcNow : Int) (e : String)
    (h : (create_hourly_summary_report completion db utcNow).2
          = ReportOutcome.completionFailed e) :
    (create_hourly_summary_report completion db utcNow).1 = db := by
  rcases hl : lastSummaryTime db with _ | t
  · rw [create_eq_of_last_none completion db utcNow hl] at h ⊢
    exact proceedReport_failed_fst completion db utcNow pyDateTimeMin e h
  · rw [create_eq_of_last_some completion db utcNow t hl] at h ⊢
    by_cases hw : utcNow - 3600 < (normalizeUTC t).instant
    · rw [if_pos hw] at h
      simp at h
    · rw [if_neg hw] at h ⊢
      exact proceedReport_failed_fst completion db utcNow (normalizeUTC t) e h

/-- Witness for claim C6: a failing provider leaves the (empty-summaries)
store unchanged. -/
theorem completion_failure_leaves_store_unchanged_witness :
    (create_hourly_summary_report (fun _ => Except.error "boom")
        { summaries := [],
          conversations := [{ userMessage := "u", aiMessage := "a", createdAt := 100 }] }
        0).1
      = { summaries := [],
          conversations := [{ userMessage := "u", aiMessage := "a", createdAt := 100 }] } :=
  completion_failure_leaves_store_unchanged (fun _ => Except.error "boom")
    { summaries := [],
      conversations := [{ userMessage := "u", aiMessage := "a", createdAt := 100 }] }
    0 "boom" rfl

/-!
Client model, from `src/frontend/src/screens/SpeakScreen.tsx`.  The
useState flags of the component, the silence-timeout ref, and the externally
observable effects (alerts shown, frames sent, texts spoken, chat
messages rendered, WebSocket constructions) form the state; each event
handler of the source becomes one transition function reading the current
session state.
-/

/-- One entry of the on-screen message list (`Message` in the source,
without the wall-clock id/timestamp fields). -/
structure ChatMessage where
  isUser : Bool
  content : String
deriving DecidableEq

/-- The session state of `SpeakScreen` plus its observable effect logs. -/
structure SpeakState where
  isRecording : Bool := false
  isSpeaking : Bool := false
  isConnected : Bool := false
  isProcessing : Bool := false
  messages : List ChatMessage := []
  silenceTimerArmed : Bool := false
  alerts : List String := []
  sent : List String := []
  spoken : List String := []
  connectAttempts : Nat := 0
deriving DecidableEq

/-- The state at mount, before `initializeApp` runs. -/
def initialSpeakState : SpeakState := {}

/-- Source `connectWebSocket` (lines 121-180): detach the old handlers and open a
new socket — one more connection attempt; no counter is kept and no alert
is shown on this path. -/
def connectWebSocket (s : SpeakState) : SpeakState :=
  { s with connectAttempts := s.connectAttempts + 1 }

/-- Source `onopen` (lines 135-138). -/
def wsOnOpen (s : SpeakState) : SpeakState :=
  { s with isConnected := true }

/-- Source `onclose`, immediate part (lines 160-162). -/
def wsOnClose (s : SpeakState) : SpeakState :=
  { s with isConnected := false }

/-- The 3-second backoff callback scheduled by `onclose` (lines 163-169):
reconnect only while the screen is focused. -/
def reconnectTimerFire (focused : Bool) (s : SpeakState) : SpeakState :=
  if focused then connectWebSocket s else s

/-- One unexpected closure followed by its backoff timer firing. -/
def closeCycle (focused : Bool) (s : SpeakState) : SpeakState :=
  reconnectTimerFire focused (wsOnClose s)

/-- A run of consecutive non-user-initiated closures, each given the
focus flag in effect when its backoff timer fires. -/
def runClosures (flags : List Bool) (s : SpeakState) : SpeakState :=
  flags.foldl (fun acc f => closeCycle f acc) s

/-- An inbound WebSocket frame after the `JSON.parse` attempt of
`onmessage`: either the parse threw, or it produced a `type` and a
`content` field. -/
inductive InboundFrame
  | malformed
  | frame (ftype : String) (content : String)
deriving DecidableEq

/-- Source `handleUserMessage` (lines 253-260). -/
def handleUserMessage (m : String) (s : SpeakState) : SpeakState :=
  { s with messages := s.messages ++ [{ isUser := true, content := m }] }

/-- Source `speakMessage` (lines 272-279): hand the text to TTS. -/
def speakMessage (m : String) (s : SpeakState) : SpeakState :=
  { s with spoken := s.spoken ++ [m] }

/-- Source `handleAIMessage` (lines 262-270). -/
def handleAIMessage (m : String) (s : SpeakState) : SpeakState :=
  speakMessage m { s with messages := s.messages ++ [{ isUser := false, content := m }] }

/-- Source `onmessage` (lines 140-158): dispatch on the parsed type; a parse
failure only clears the processing flag. -/
def wsOnMessage (f : InboundFrame) (s : SpeakState) : SpeakState :=
  match f with
  | .malformed => { s with isProcessing := false }
  | .frame t c =>
      if t = "ai_message" then { handleAIMessage c s with isProcessing := false }
      else if t = "user_message" then handleUserMessage c s
      else if t = "error" then { s with alerts := s.alerts ++ ["처리 오류"], isProcessing := false }
      else s

/-- Source `startRecording` (lines 182-218): a no-op while the AI is speaking or
a turn is processing; otherwise start capture and (re)arm the 10-second
silence timer. -/
def startRecording (s : SpeakState) : SpeakState :=
  if s.isSpeaking || s.isProcessing then s
  else { s with isRecording := true, silenceTimerArmed := true }

/-- Source `stopRecording` (lines 220-251): a no-op while not recording;
otherwise leave Recording for Processing, cancel the silence timer, and
send the captured audio only when the link is connected. -/
def stopRecording (s : SpeakState) : SpeakState :=
  if !s.isRecording then s
  else if s.isConnected then
    { s with isRecording := false, isProcessing := true, silenceTimerArmed := false,
             sent := s.sent ++ ["audio_data"] }
  else
    { s with isRecording := false, isProcessing := true, silenceTimerArmed := false }

/-- The 10-second silence timeout (lines 203-212) as intended: a
JavaScript timeout runs only while still armed (`clearTimeout`) and is
spent once it runs; the callback body stops the recording and shows the
silence notice.  This reads the live `isRecording` flag; the program as
written instead branches on a render-captured value — see
`silenceTimeoutCallbackCaptured` for the faithful execution model. -/
def silenceTimeoutEvent (s : SpeakState) : SpeakState :=
  if s.silenceTimerArmed then
    if s.isRecording then
      let s2 := stopRecording { s with silenceTimerArmed := false }
      { s2 with alerts := s2.alerts ++ ["대화 종료"] }
    else { s with silenceTimerArmed := false }
  else s

/-- Source `tts-start` listener (line 78). -/
def ttsStartEvent (s : SpeakState) : SpeakState :=
  { s with isSpeaking := true }

/-- Source `tts-finish` listener, immediate part (line 80); it also schedules
`restartAfterSpeechFire` after a one-second delay. -/
def ttsFinishEvent (s : SpeakState) : SpeakState :=
  { s with isSpeaking := false }

/-- Source `tts-cancel` listener (line 87). -/
def ttsCancelEvent (s : SpeakState) : SpeakState :=
  { s with isSpeaking := false }

/-- The delayed auto-restart after AI speech (lines 81-85) as intended,
reading the live flags; the program as written reads the mount-render
snapshot — see `restartAfterSpeechFireCaptured` for the faithful
execution model. -/
def restartAfterSpeechFire (s : SpeakState) : SpeakState :=
  if !s.isRecording && !s.isProcessing then startRecording s else s

/-- The 10-second timeout callback as the program actually executes it
(lines 204-212).  React `useState` values are per-render constants: the
closure created inside `startRecording` reads the `isRecording` constant
of the render that created it, and `setIsRecording(true)` only affects
later renders.  The callback therefore branches on that captured value,
while its effects act on the live state.  On every reachable arming path
the captured value is `false`: the record control binds `startRecording`
only in a render where `isRecording` is false (line 363), and the
auto-restart path invokes the mount-render `startRecording`, whose
snapshot is the all-false initial state. -/
def silenceTimeoutCallbackCaptured (capturedIsRecording : Bool)
    (s : SpeakState) : SpeakState :=
  if capturedIsRecording then
    let s2 := stopRecording s
    { s2 with alerts := s2.alerts ++ ["대화 종료"] }
  else s

/-- The tts-finish auto-restart as the program actually executes it
(lines 79-86): the listener is registered once during mount, so both its
guard and the `startRecording` closure it invokes read the mount-render
snapshot `captured` (every flag false at mount); only the state setters
and the device calls act on the live state. -/
def restartAfterSpeechFireCaptured (captured : SpeakState)
    (s : SpeakState) : SpeakState :=
  if !captured.isRecording && !captured.isProcessing then
    if captured.isSpeaking || captured.isProcessing then s
    else { s with isRecording := true, silenceTimerArmed := true }
  else s

/-- Every event of the controller that is not the arrival of an inbound
frame: user taps, the timers, the TTS notifications and the link
lifecycle events. -/
inductive LocalEvent
  | tapStart
  | tapStop
  | silenceTimer
  | ttsStarted
  | ttsFinished
  | ttsCanceled
  | speechRestart
  | sockOpen
  | sockClose
  | reconnect (focused : Bool)
deriving DecidableEq

/-- Dispatch a local event to its handler. -/
def localStep : LocalEvent → SpeakState → SpeakState
  | .tapStart, s => startRecording s
  | .tapStop, s => stopRecording s
  | .silenceTimer, s => silenceTimeoutEvent s
  | .ttsStarted, s => ttsStartEvent s
  | .ttsFinished, s => ttsFinishEvent s
  | .ttsCanceled, s => ttsCancelEvent s
  | .speechRestart, s => restartAfterSpeechFire s
  | .sockOpen, s => wsOnOpen s
  | .sockClose, s => wsOnClose s
  | .reconnect f, s => reconnectTimerFire f s

/-- Claim C1 counterexample: the claim asserts that after the
reconnection counter reaches 5 no further automatic reconnection attempt
occurs and a fatal connectivity notice is emitted exactly once.  But the
`onclose` handler keeps no counter: starting from a freshly connected
session (one initial `connectWebSocket` call), six consecutive
non-user-initiated closures with the screen focused produce six further
automatic attempts (seven socket constructions in total) and zero
alerts — in particular no fatal connectivity notice. -/
theorem reconnect_budget_counterexample :
    (runClosures (List.replicate 6 true)
        (wsOnOpen (connectWebSocket initialSpeakState))).connectAttempts = 7
    ∧ (runClosures (List.replicate 6 true)
        (wsOnOpen (connectWebSocket initialSpeakState))).alerts = [] := by
  constructor <;> rfl

/-- Claim C1 as amended: for every sequence of link-closure events none of
which is user-initiated, each closure whose backoff timer fires with the
screen focused produces exactly one automatic reconnection attempt, with
no counter, no 5-attempt cap, and no fatal connectivity notice ever
emitted. -/
theorem reconnect_unbounded (flags : List Bool) (s : SpeakState) :
    (runClosures flags s).connectAttempts = s.connectAttempts + flags.count true
    ∧ (runClosures flags s).alerts = s.alerts := by
  induction flags generalizing s with
  | nil => simp [runClosures]
  | cons f rest ih =>
      have hstep : runClosures (f :: rest) s = runClosures rest (closeCycle f s) := rfl
      have h1 := ih (closeCycle f s)
      have hattr : (closeCycle f s).connectAttempts
          = s.connectAttempts + (if f then 1 else 0) := by
        cases f <;> simp [closeCycle, wsOnClose, reconnectTimerFire, connectWebSocket]
      have halrt : (closeCycle f s).alerts = s.alerts := by
        cases f <;> simp [closeCycle, wsOnClose, reconnectTimerFire, connectWebSocket]
      constructor
      · rw [hstep, h1.1, hattr]
        cases f
        · simp [List.count_cons]
        · simp [List.count_cons]
          omega
      · rw [hstep, h1.2, halrt]

/-- Claim C4 is a code bug: the 10-second timer body never runs its
stop-and-notify branch in the program.  Failing input: the link is open,
the user taps the record control in the idle render (snapshot
`wsOnOpen initialSpeakState`, whose `isRecording` is false), capture
starts, and ten seconds elapse with no stopCapture call.  The callback
then branches on the captured false value and leaves the live state
untouched: the session stays Recording instead of reaching Processing
and no silence notice is ever shown, while the claim — and the intent
the source states in its own timeout log message at line 206 — expects
the transition and exactly one notice. -/
theorem silence_timeout_dead_in_program :
    silenceTimeoutCallbackCaptured (wsOnOpen initialSpeakState).isRecording
        (startRecording (wsOnOpen initialSpeakState))
      = startRecording (wsOnOpen initialSpeakState)
    ∧ (silenceTimeoutCallbackCaptured (wsOnOpen initialSpeakState).isRecording
        (startRecording (wsOnOpen initialSpeakState))).isRecording = true
    ∧ (silenceTimeoutCallbackCaptured (wsOnOpen initialSpeakState).isRecording
        (startRecording (wsOnOpen initialSpeakState))).isProcessing = false
    ∧ (silenceTimeoutCallbackCaptured (wsOnOpen initialSpeakState).isRecording
        (startRecording (wsOnOpen initialSpeakState))).alerts = [] :=
  ⟨rfl, rfl, rfl, rfl⟩

/-- Claim C7 is a code bug in the automatic-restart context it names:
the tts-finish listener registered at mount closes over the mount-render
snapshot (`initialSpeakState`, every flag false), so neither its
`!isRecording && !isProcessing` guard nor the
`isSpeaking || isProcessing` guard of the mount-render `startRecording`
it invokes can ever fail.  Failing input: the session is Processing a
prior turn when the one-second post-speech restart fires.  The program
starts a new capture and arms the silence timer — overlapping the turn
still being processed — while the claim says starting recording is a
no-op there. -/
theorem auto_restart_overlaps_processing :
    restartAfterSpeechFireCaptured initialSpeakState
        { initialSpeakState with isConnected := true, isProcessing := true }
      = { initialSpeakState with
            isConnected := true, isProcessing := true,
            isRecording := true, silenceTimerArmed := true } :=
  rfl

/-- Claim C8: stopCapture is idempotent — called while not recording it
changes nothing (no state change, no timer cancellation, no message
sent), and calling it twice in a row has the same effect as calling it
once. -/
theorem stop_capture_idempotent (s : SpeakState) :
    (s.isRecording = false → stopRecording s = s)
    ∧ stopRecording (stopRecording s) = stopRecording s := by
  constructor
  · intro h
    simp [stopRecording, h]
  · cases hb : s.isRecording
    · have e1 : stopRecording s = s := by simp [stopRecording, hb]
      rw [e1, e1]
    · cases hcon : s.isConnected
      · have e1 : stopRecording s =
            { s with isRecording := false, isProcessing := true,
                     silenceTimerArmed := false } := by
          simp [stopRecording, hb, hcon]
        rw [e1]
        simp [stopRecording]
      · have e1 : stopRecording s =
            { s with isRecording := false, isProcessing := true,
                     silenceTimerArmed := false, sent := s.sent ++ ["audio_data"] } := by
          simp [stopRecording, hb, hcon]
        rw [e1]
        simp [stopRecording]

/-- Witness for claim C8: a non-recording state is left untouched, and a
second stop after a real stop changes nothing. -/
theorem stop_capture_idempotent_witness :
    stopRecording initialSpeakState = initialSpeakState
    ∧ stopRecording (stopRecording { initialSpeakState with isRecording := true })
        = stopRecording { initialSpeakState with isRecording := true } :=
  ⟨(stop_capture_idempotent initialSpeakState).1 rfl,
    (stop_capture_idempotent { initialSpeakState with isRecording := true }).2⟩

/-- Claim C9: an inbound frame that fails to parse only clears the local
processing flag — the link stays open and no user-facing alert is
raised — and a well-formed frame whose type is none of `user_message`,
`ai_message`, `error` produces no state change at all. -/
theorem unrecognized_frames_ignored (s : SpeakState) (t c : String)
    (h1 : t ≠ "ai_message") (h2 : t ≠ "user_message") (h3 : t ≠ "error") :
    wsOnMessage (InboundFrame.frame t c) s = s
    ∧ wsOnMessage InboundFrame.malformed s = { s with isProcessing := false } := by
  constructor
  · simp [wsOnMessage, h1, h2, h3]
  · rfl

/-- Witness for claim C9: a frame with the unknown type `ping`. -/
theorem unrecognized_frames_ignored_witness :
    wsOnMessage (InboundFrame.frame "ping" "x") initialSpeakState = initialSpeakState
    ∧ wsOnMessage InboundFrame.malformed initialSpeakState
        = { initialSpeakState with isProcessing := false } :=
  unrecognized_frames_ignored initialSpeakState "ping" "x"
    (by decide) (by decide) (by decide)

/-- Every local (non-inbound-frame) event of the controller leaves an
already-set processing flag set; only the inbound-frame handler ever
clears it. -/
theorem localStep_preserves_processing (e : LocalEvent) (s : SpeakState)
    (h : s.isProcessing = true) : (localStep e s).isProcessing = true := by
  have hstart : ∀ s' : SpeakState, s'.isProcessing = true →
      (startRecording s').isProcessing = true := by
    intro s' h'
    simp [startRecording, h']
  have hstop : ∀ s' : SpeakState, s'.isProcessing = true →
      (stopRecording s').isProcessing = true := by
    intro s' h'
    unfold stopRecording
    split
    · exact h'
    · split <;> rfl
  cases e with
  | tapStart => exact hstart s h
  | tapStop => exact hstop s h
  | silenceTimer =>
      show (silenceTimeoutEvent s).isProcessing = true
      unfold silenceTimeoutEvent
      split
      · split
        · have := hstop { s with silenceTimerArmed := false } h
          simpa using this
        · exact h
      · exact h
  | ttsStarted => exact h
  | ttsFinished => exact h
  | ttsCanceled => exact h
  | speechRestart =>
      show (restartAfterSpeechFire s).isProcessing = true
      unfold restartAfterSpeechFire
      split
      · exact hstart s h
      · exact h
  | sockOpen => exact h
  | sockClose => exact h
  | reconnect f =>
      show (reconnectTimerFire f s).isProcessing = true
      unfold reconnectTimerFire
      split
      · exact h
      · exact h

/-- Claim C10: stopCapture invoked while recording with the link not
connected still cancels the inactivity timer and transitions to
Processing, yet sends no `audio_data` message and raises no user-visible
error — the captured turn is silently abandoned — and no subsequent local
controller event clears the Processing flag (only inbound frames do). -/
theorem stop_capture_disconnected_abandons_turn (s : SpeakState)
    (hr : s.isRecording = true) (hc : s.isConnected = false) :
    (stopRecording s).isRecording = false
    ∧ (stopRecording s).isProcessing = true
    ∧ (stopRecording s).silenceTimerArmed = false
    ∧ (stopRecording s).sent = s.sent
    ∧ (stopRecording s).alerts = s.alerts
    ∧ ∀ e : LocalEvent, (localStep e (stopRecording s)).isProcessing = true := by
  have hstop : stopRecording s =
      { s with isRecording := false, isProcessing := true, silenceTimerArmed := false } := by
    simp [stopRecording, hr, hc]
  refine ⟨by rw [hstop], by rw [hstop], by rw [hstop], by rw [hstop], by rw [hstop], ?_⟩
  intro e
  exact localStep_preserves_processing e (stopRecording s) (by rw [hstop])

/-- Witness for claim C10: stopping a disconnected recording session
leaves Processing set even after a user tap on the record control. -/
theorem stop_capture_disconnected_abandons_turn_witness :
    (stopRecording { initialSpeakState with isRecording := true }).isProcessing = true
    ∧ (stopRecording { initialSpeakState with isRecording := true }).sent = []
    ∧ (localStep LocalEvent.tapStart
        (stopRecording { initialSpeakState with isRecording := true })).isProcessing = true :=
  ⟨(stop_capture_disconnected_abandons_turn
      { initialSpeakState with isRecording := true } rfl rfl).2.1,
    (stop_capture_disconnected_abandons_turn
      { initialSpeakState with isRecording := true } rfl rfl).2.2.2.1,
    (stop_capture_disconnected_abandons_turn
      { initialSpeakState with isRecording := true } rfl rfl).2.2.2.2.2 LocalEvent.tapStart⟩

end AiTalk
